import Mathlib

/-!
# Verification of the Aronia Pure backend core

Shallow embedding of the two core request handlers of the backend
(src/main.py: list_products and create_order) together with the pydantic
request/response shapes they rely on (src/schemas.py), and proofs of the
specified properties.

Python numbers: the source computes order totals with Python floats
(IEEE-754 binary64).  We embed a float as the exact rational value it
denotes, and model every arithmetic operation as exact rational
arithmetic followed by `fp64`, the binary64 round-to-nearest-ties-to-even
rounding map.  Overflow to infinity and NaN are not modelled: every value
appearing in this development is far inside the normal range.

The document store (MongoDB behind `create_document` / `get_documents`,
declared out of scope by the specification) is modelled by its observable
outcome at each call site: a query either returns a list of loosely-typed
documents or raises, and an insert either returns an id or raises.
-/

namespace Aronia

/-! ## Binary64 value model -/

/-- Absolute value on ℚ, written explicitly so concrete values reduce. -/
def qabs (q : ℚ) : ℚ := if q < 0 then -q else q

/-- Round a rational to the nearest integer, ties to even
(the IEEE-754 default rounding used by Python float arithmetic). -/
def roundHalfEven (x : ℚ) : ℤ :=
  if 2 * x < 2 * (⌊x⌋ : ℚ) + 1 then ⌊x⌋
  else if 2 * (⌊x⌋ : ℚ) + 1 < 2 * x then ⌊x⌋ + 1
  else if ⌊x⌋ % 2 = 0 then ⌊x⌋ else ⌊x⌋ + 1

/-- Largest e : ℤ with 2 ^ e ≤ m, for m > 0.  The candidate derived from
the bit lengths of numerator and denominator is off by at most one, so we
test the two candidates above it. -/
def qfloorLog2 (m : ℚ) : ℤ :=
  let e0 : ℤ := (Nat.log2 m.num.natAbs : ℤ) - (Nat.log2 m.den : ℤ) - 1
  if (2 : ℚ) ^ (e0 + 2) ≤ m then e0 + 2
  else if (2 : ℚ) ^ (e0 + 1) ≤ m then e0 + 1
  else e0

/-- IEEE-754 binary64 rounding (round to nearest, ties to even) as a map
ℚ → ℚ: the significand is rounded to 53 bits, with the exponent clamped
below at the subnormal scale 2 ^ (-1074).  This is the value semantics of
Python float arithmetic for every finite, non-overflowing result. -/
def fp64 (q : ℚ) : ℚ :=
  if q = 0 then 0
  else
    let e := qfloorLog2 (qabs q)
    let scale := if e - 52 < -1074 then -1074 else e - 52
    let n := roundHalfEven (qabs q * (2 : ℚ) ^ (-scale))
    (if q < 0 then -1 else 1) * (n : ℚ) * (2 : ℚ) ^ scale

/-- Python float addition: exact rational sum, rounded to binary64. -/
def fpadd (x y : ℚ) : ℚ := fp64 (x + y)

/-- Python float multiplication: exact rational product, rounded to binary64. -/
def fpmul (x y : ℚ) : ℚ := fp64 (x * y)

/-! ## Request shapes (src/schemas.py) -/

/-- Split a character list at the first occurrence of c; none if c is absent. -/
def splitFirst (c : Char) : List Char → Option (List Char × List Char)
  | [] => none
  | x :: xs =>
    if x = c then some ([], xs)
    else
      match splitFirst c xs with
      | some (l, r) => some (x :: l, r)
      | none => none

/-- Modelled from the spec: "customer_email (must be a syntactically valid
email address)".  The actual check is pydantic EmailStr backed by the
external email-validator library, which is not part of this repository;
we model syntactic well-formedness as: the string splits at a unique @
into a non-empty local part and a domain that contains a dot, does not
start or end with a dot, and contains no further @. -/
def isValidEmail (s : String) : Bool :=
  match splitFirst '@' s.data with
  | none => false
  | some (lcl, dom) =>
    !lcl.isEmpty && !dom.isEmpty && !dom.contains '@' && dom.contains '.' &&
      (dom.head? != some '.') && (dom.getLast? != some '.')

/-- One entry of the items array of a checkout request body, before
validation: each schema field is either absent or a JSON value of the
declared kind.  unit_price carries the binary64 value produced by JSON
number decoding. -/
structure RawOrderItem where
  product_sku : Option String
  title : Option String
  unit_price : Option ℚ
  quantity : Option ℤ
deriving DecidableEq

/-- A checkout request body before validation.  The total field stands
for a client-supplied total: the Order schema declares no such field, and
pydantic (default config) silently drops unknown fields, so it can never
reach the handler. -/
structure RawOrder where
  customer_name : Option String
  customer_email : Option String
  shipping_address : Option String
  items : Option (List RawOrderItem)
  notes : Option String
  total : Option ℚ
deriving DecidableEq

/-- Validated OrderItem (src/schemas.py lines 60-64). -/
structure OrderItem where
  product_sku : String
  title : String
  unit_price : ℚ
  quantity : ℤ
deriving DecidableEq

/-- Validated Order (src/schemas.py lines 66-71). -/
structure Order where
  customer_name : String
  customer_email : String
  shipping_address : String
  items : List OrderItem
  notes : Option String
deriving DecidableEq

/-- Pydantic validation of one OrderItem (src/schemas.py lines 60-64):
product_sku, title and unit_price are required; quantity defaults to 1
when absent and must lie in [1, 24] when present.  unit_price has no
constraint in the schema (in particular no lower bound). -/
def parseOrderItem (r : RawOrderItem) : Option OrderItem :=
  match r.product_sku, r.title, r.unit_price with
  | some sku, some t, some p =>
    match r.quantity with
    | none => some ⟨sku, t, p, 1⟩
    | some q => if 1 ≤ q ∧ q ≤ 24 then some ⟨sku, t, p, q⟩ else none
  | _, _, _ => none

/-- Validation of the items array: every entry must validate.
(A failing entry fails the whole request, as pydantic does.) -/
def parseItems : List RawOrderItem → Option (List OrderItem)
  | [] => some []
  | r :: rs =>
    match parseOrderItem r, parseItems rs with
    | some i, some is => some (i :: is)
    | _, _ => none

/-- Pydantic validation of the Order body (src/schemas.py lines 66-71):
customer_name, customer_email, shipping_address and items are required,
customer_email must be a well-formed email, notes is optional, and the
unknown total field is ignored.  An empty items list is accepted by the
shape (non-emptiness is checked later, inside the handler). -/
def parseOrder (r : RawOrder) : Option Order :=
  match r.customer_name, r.customer_email, r.shipping_address, r.items with
  | some nm, some em, some ad, some its =>
    if isValidEmail em then
      match parseItems its with
      | some is => some ⟨nm, em, ad, is, r.notes⟩
      | none => none
    else none
  | _, _, _, _ => none

/-! ## Checkout handler (src/main.py lines 63-81) -/

/-- The running sum of Python sum over the items generator: the
accumulator starts at int 0 and each step adds
item.unit_price * item.quantity in float arithmetic (the int quantity is
converted to float, exactly for the magnitudes at hand). -/
def sumTotal : ℚ → List OrderItem → ℚ
  | acc, [] => acc
  | acc, it :: its => sumTotal (fpadd acc (fpmul it.unit_price (fp64 (it.quantity : ℚ)))) its

/-- total of src/main.py line 70:
sum(item.unit_price * item.quantity for item in order.items). -/
def pyTotal (items : List OrderItem) : ℚ := sumTotal 0 items

/-- Observable response of the checkout endpoint: a 200 body
with order_id (null when persistence failed) and total_amount, the 400
HTTPException raised by the handler, or the validation error produced
when the body fails the Order shape (FastAPI rejects such a body before
the handler runs). -/
inductive CheckoutResponse where
  | ok (order_id : Option String) (total_amount : ℚ)
  | badRequest (detail : String)
  | validationError
deriving DecidableEq

/-- HTTP status of each checkout response. -/
def CheckoutResponse.statusCode : CheckoutResponse → ℕ
  | .ok _ _ => 200
  | .badRequest _ => 400
  | .validationError => 422

/-- total_amount carried by a checkout response, if any. -/
def totalOf : CheckoutResponse → Option ℚ
  | .ok _ t => some t
  | _ => none

/-- Response of the checkout path together with whether the handler
attempted the store insert (reached the create_document call). -/
structure CheckoutOutcome where
  response : CheckoutResponse
  insertAttempted : Bool
deriving DecidableEq

/-- create_order (src/main.py lines 63-81).  insertResult is the outcome
of the create_document call: some id when the insert succeeds, none when
it raises.  An empty items list raises HTTPException 400 before anything
else; otherwise the total is computed server-side and the handler returns
status ok with the generated id, or with a null id when the insert raised
(lines 76-81 return the same body in both arms, differing only in
order_id). -/
def create_order (insertResult : Option String) (order : Order) : CheckoutOutcome :=
  if order.items.isEmpty then
    ⟨.badRequest "Order must contain at least one item", false⟩
  else
    ⟨.ok insertResult (pyTotal order.items), true⟩

/-- The whole POST /api/checkout path: body validation, then the handler. -/
def checkout (insertResult : Option String) (req : RawOrder) : CheckoutOutcome :=
  match parseOrder req with
  | none => ⟨.validationError, false⟩
  | some o => create_order insertResult o

/-! ## Store documents and Python coercions (src/main.py lines 29-60) -/

/-- A loosely-typed value as read back from the document store
(BSON decoded to Python): null, boolean, integer, double or string. -/
inductive JVal where
  | jnull
  | jbool (b : Bool)
  | jint (n : ℤ)
  | jnum (q : ℚ)
  | jstr (s : String)
deriving DecidableEq

/-- Value of a non-empty all-digit character list, none otherwise. -/
def digitsValAux : ℕ → List Char → Option ℕ
  | acc, [] => some acc
  | acc, c :: cs =>
    if c.isDigit then digitsValAux (acc * 10 + (c.toNat - 48)) cs else none

/-- Value of a non-empty all-digit character list, none otherwise. -/
def digitsVal (cs : List Char) : Option ℕ :=
  if cs.isEmpty then none else digitsValAux 0 cs

/-- Unsigned decimal literal: digits with an optional fractional part.
This is the decimal-literal fragment of what Python float() accepts
(exponents, infinities, NaN, underscores and surrounding whitespace are
not modelled; no document in this development uses them). -/
def pyParseUnsigned (cs : List Char) : Option ℚ :=
  match splitFirst '.' cs with
  | none => (digitsVal cs).map (fun n => (n : ℚ))
  | some (w, f) =>
    if w.isEmpty && f.isEmpty then none
    else
      match (if w.isEmpty then some 0 else digitsVal w),
            (if f.isEmpty then some 0 else digitsVal f) with
      | some wn, some fn => some ((wn : ℚ) + (fn : ℚ) / (10 : ℚ) ^ f.length)
      | _, _ => none

/-- Python float(s) on a decimal-literal string: parse and round to
binary64; none when Python would raise ValueError. -/
def pyFloatOfString (s : String) : Option ℚ :=
  match s.data with
  | '+' :: cs => (pyParseUnsigned cs).map fp64
  | '-' :: cs => (pyParseUnsigned cs).map (fun q => fp64 (-q))
  | cs => (pyParseUnsigned cs).map fp64

/-- Python int(s) on an integer-literal string; none when Python raises. -/
def pyIntOfString (s : String) : Option ℤ :=
  match s.data with
  | '+' :: cs => (digitsVal cs).map (fun n => (n : ℤ))
  | '-' :: cs => (digitsVal cs).map (fun n => -(n : ℤ))
  | cs => (digitsVal cs).map (fun n => (n : ℤ))

/-- Truncation toward zero: the conversion Python int() applies to a float. -/
def pyTrunc (q : ℚ) : ℤ := if q < 0 then -⌊-q⌋ else ⌊q⌋

/-- Python float(v): raises (none) on None and on non-numeric strings;
booleans become 0.0 / 1.0; numbers keep their value (a stored double is
already a binary64 value). -/
def pyFloat : JVal → Option ℚ
  | .jnull => none
  | .jbool b => some (if b then 1 else 0)
  | .jint n => some (n : ℚ)
  | .jnum q => some q
  | .jstr s => pyFloatOfString s

/-- Python int(v): raises (none) on None and on non-integer-literal
strings; booleans become 0 / 1; a float is truncated toward zero. -/
def pyInt : JVal → Option ℤ
  | .jnull => none
  | .jbool b => some (if b then 1 else 0)
  | .jint n => some n
  | .jnum q => some (pyTrunc q)
  | .jstr s => pyIntOfString s

/-- Python bool(v): truthiness.  Never raises. -/
def pyBool : JVal → Bool
  | .jnull => false
  | .jbool b => b
  | .jint n => if n = 0 then false else true
  | .jnum q => if q = 0 then false else true
  | .jstr s => if s.isEmpty then false else true

/-- A stored product document as the handler reads it: each of the eight
fields accessed by the normalization (src/main.py lines 47-58) is either
absent or holds a loosely-typed value.  Other keys are never read. -/
structure Doc where
  title : Option JVal := none
  description : Option JVal := none
  price : Option JVal := none
  category : Option JVal := none
  in_stock : Option JVal := none
  image_url : Option JVal := none
  sku : Option JVal := none
  volume_ml : Option JVal := none
deriving DecidableEq

/-- A product record as returned by the endpoint: price, in_stock and
volume_ml are coerced to number, boolean and integer; the remaining
fields are passed through unchanged (i.get returns None when absent). -/
structure ProductOut where
  title : Option JVal
  description : Option JVal
  price : ℚ
  category : Option JVal
  in_stock : Bool
  image_url : Option JVal
  sku : Option JVal
  volume_ml : ℤ
deriving DecidableEq

/-- Normalization of one stored document (src/main.py lines 47-58):
price := float(i.get("price", 0)), in_stock := bool(i.get("in_stock", True)),
volume_ml := int(i.get("volume_ml", 750)), other fields passed through.
float() is evaluated before int() (dict-literal order); either can raise
(none), and this normalization is outside the try/except around the query. -/
def normalize (d : Doc) : Option ProductOut :=
  match pyFloat (d.price.getD (.jint 0)) with
  | none => none
  | some price =>
    match pyInt (d.volume_ml.getD (.jint 750)) with
    | none => none
    | some vol =>
      some ⟨d.title, d.description, price, d.category,
            pyBool (d.in_stock.getD (.jbool true)), d.image_url, d.sku, vol⟩

/-- The list comprehension of src/main.py lines 47-59: normalize every
document; the first raising document aborts the whole request. -/
def normalizeAll : List Doc → Option (List ProductOut)
  | [] => some []
  | d :: ds =>
    match normalize d, normalizeAll ds with
    | some p, some ps => some (p :: ps)
    | _, _ => none

/-- AroniaProduct() with its model_dump (src/schemas.py lines 45-57):
the fixed default product seeded when the catalog reads empty.  price is
the binary64 value of the source literal 12.90. -/
def defaultProduct : ProductOut :=
  { title := some (.jstr "Aronia Pure - 100% Chokeberry Juice")
    description := some (.jstr "Cold-pressed from fresh aronia berries, unfiltered to retain natural goodness. Tart, rich, and invigorating.")
    price := fp64 (129 / 10)
    category := some (.jstr "Beverages")
    in_stock := true
    image_url := some (.jstr "https://images.unsplash.com/photo-1626595424320-b872d5efaa11?auto=format&fit=crop&w=1600&q=80")
    sku := some (.jstr "ARONIA-750ML")
    volume_ml := 750 }

/-- A value that validates against a required str field of AroniaProduct
(pydantic v2 does not coerce null, booleans or numbers to str). -/
def isStrVal : Option JVal → Bool
  | some (.jstr _) => true
  | _ => false

/-- A value that validates against the Optional str image_url field of
AroniaProduct: absent, null, or a string. -/
def isOptStrVal : Option JVal → Bool
  | none => true
  | some .jnull => true
  | some (.jstr _) => true
  | _ => false

/-- Pydantic validation of one returned record against AroniaProduct
(src/schemas.py lines 45-57), as FastAPI applies it to the response:
title, description, category and sku must be strings (their defaults
apply only to absent keys, and the handler always supplies every key),
image_url is an optional string, price is a float with ge=0, in_stock a
bool (always true of a normalized record), and volume_ml an int with
ge=50. -/
def validAroniaProduct (p : ProductOut) : Bool :=
  isStrVal p.title && isStrVal p.description && decide (0 ≤ p.price) &&
    isStrVal p.category && isOptStrVal p.image_url && isStrVal p.sku &&
    decide (50 ≤ p.volume_ml)

/-- Observable response of GET /api/products: a 200 product list, or the
500 produced when a coercion in the normalization raises or when the
returned records fail the endpoint's response-model validation. -/
inductive ListResult where
  | ok (products : List ProductOut)
  | serverError
deriving DecidableEq

/-- FastAPI response-model validation of the handler's return value
(src/main.py line 29, response_model=List[AroniaProduct]): every record
must validate against AroniaProduct, otherwise the endpoint raises
ResponseValidationError, a server error. -/
def validateResponse (ps : List ProductOut) : ListResult :=
  if ps.all validAroniaProduct then .ok ps else .serverError

/-- Response of the listing path together with whether the handler
attempted the seed insert (reached the create_document call). -/
structure ListOutcome where
  response : ListResult
  seedAttempted : Bool
deriving DecidableEq

/-- list_products (src/main.py lines 29-60).  queryResult is the outcome
of get_documents: some docs when the query returns, none when it raises
(swallowed, treated as an empty list).  On an empty list the handler
builds the default product, attempts to persist it, and returns the
single default whether or not that insert raised (seedInsertOk); on a
non-empty list it normalizes each document, outside any exception
handler.  Whatever the handler returns then passes through the
endpoint's response-model validation. -/
def list_products (queryResult : Option (List Doc)) (seedInsertOk : Bool) : ListOutcome :=
  let items := match queryResult with | some ds => ds | none => []
  if items.isEmpty then
    if seedInsertOk then ⟨validateResponse [defaultProduct], true⟩
    else ⟨validateResponse [defaultProduct], true⟩
  else
    match normalizeAll items with
    | some ps => ⟨validateResponse ps, false⟩
    | none => ⟨.serverError, false⟩

/-! ## Helper lemmas -/

/-- The data of an order item that the total computation reads. -/
def priceQty (i : OrderItem) : ℚ × ℤ := (i.unit_price, i.quantity)

lemma sumTotal_ext : ∀ xs ys : List OrderItem, xs.map priceQty = ys.map priceQty →
    ∀ acc : ℚ, sumTotal acc xs = sumTotal acc ys := by
  intro xs
  induction xs with
  | nil =>
    intro ys h acc
    cases ys with
    | nil => rfl
    | cons y ys => simp at h
  | cons x xs ih =>
    intro ys h acc
    cases ys with
    | nil => simp at h
    | cons y ys =>
      simp only [List.map_cons, List.cons.injEq] at h
      have hp : x.unit_price = y.unit_price := congrArg Prod.fst h.1
      have hq : x.quantity = y.quantity := congrArg Prod.snd h.1
      simp only [sumTotal]
      rw [hp, hq]
      exact ih ys h.2 _

lemma parseItems_none_of_mem : ∀ (its : List RawOrderItem) (r : RawOrderItem),
    r ∈ its → parseOrderItem r = none → parseItems its = none := by
  intro its
  induction its with
  | nil => intro r hr; cases hr
  | cons a as ih =>
    intro r hr hn
    cases hr with
    | head => simp [parseItems, hn]
    | tail _ hmem =>
      cases h : parseOrderItem a <;> simp [parseItems, h, ih r hmem hn]

lemma parseOrderItem_none_of_badQty (r : RawOrderItem) (q : ℤ)
    (hq : r.quantity = some q) (hbad : q < 1 ∨ 24 < q) : parseOrderItem r = none := by
  obtain ⟨s?, t?, p?, q?⟩ := r
  simp only at hq
  subst hq
  have hnb : ¬(1 ≤ q ∧ q ≤ 24) := by omega
  cases s? <;> cases t? <;> cases p? <;> simp [parseOrderItem, hnb]

lemma normalizeAll_length : ∀ (ds : List Doc) (ps : List ProductOut),
    normalizeAll ds = some ps → ps.length = ds.length := by
  intro ds
  induction ds with
  | nil =>
    intro ps h
    simp only [normalizeAll, Option.some.injEq] at h
    simp [h.symm]
  | cons d ds ih =>
    intro ps h
    simp only [normalizeAll] at h
    cases hd : normalize d with
    | none => rw [hd] at h; simp at h
    | some p =>
      rw [hd] at h
      cases ht : normalizeAll ds with
      | none => rw [ht] at h; simp at h
      | some qs =>
        rw [ht] at h
        simp only [Option.some.injEq] at h
        rw [h.symm]
        simp [ih qs ht]

lemma validateResponse_default : validateResponse [defaultProduct] = .ok [defaultProduct] := by
  norm_num [validateResponse, validAroniaProduct, isStrVal, isOptStrVal, defaultProduct,
    fp64, qfloorLog2, qabs, roundHalfEven, Nat.log2]

/-! ## Claims -/

/-- C1: for every checkout request whose body validates to an order with
non-empty items, the total_amount returned by create_order
(POST /api/checkout) is the server-side sum of unit_price times quantity
over the items, computed in the handler's own (binary64) arithmetic at
src/main.py line 70, with order_id reflecting the insert outcome; and
the outcome is independent of any client-supplied total field in the
request body, which the Order shape ignores. -/
theorem C1_total_server_side (ins : Option String) (req : RawOrder) (o : Order)
    (hp : parseOrder req = some o) (hne : o.items ≠ []) :
    (checkout ins req).response = .ok ins (pyTotal o.items) ∧
    ∀ t₁ t₂ : Option ℚ,
      checkout ins { req with total := t₁ } = checkout ins { req with total := t₂ } := by
  constructor
  · cases hits : o.items with
    | nil => exact absurd hits hne
    | cons a as => simp [checkout, hp, create_order, hits]
  · intro t₁ t₂; rfl

/-- C1 witness: a concrete two-item order; its total is 10 and the
response ignores a client-supplied total of 999. -/
theorem C1_witness :
    parseOrder ⟨some "Ann", some "ann@example.com", some "12 Main St",
        some [⟨some "ARONIA-750ML", some "Aronia Pure", some 5, some 2⟩], none, none⟩ =
      some ⟨"Ann", "ann@example.com", "12 Main St",
        [⟨"ARONIA-750ML", "Aronia Pure", 5, 2⟩], none⟩ ∧
    (checkout (some "oid-1") ⟨some "Ann", some "ann@example.com", some "12 Main St",
        some [⟨some "ARONIA-750ML", some "Aronia Pure", some 5, some 2⟩], none, none⟩).response =
      .ok (some "oid-1") (pyTotal [⟨"ARONIA-750ML", "Aronia Pure", 5, 2⟩]) ∧
    pyTotal [⟨"ARONIA-750ML", "Aronia Pure", (5 : ℚ), 2⟩] = 10 ∧
    checkout (some "oid-1") ⟨some "Ann", some "ann@example.com", some "12 Main St",
        some [⟨some "ARONIA-750ML", some "Aronia Pure", some 5, some 2⟩], none, some 999⟩ =
      checkout (some "oid-1") ⟨some "Ann", some "ann@example.com", some "12 Main St",
        some [⟨some "ARONIA-750ML", some "Aronia Pure", some 5, some 2⟩], none, none⟩ := by
  have h := C1_total_server_side (some "oid-1")
    ⟨some "Ann", some "ann@example.com", some "12 Main St",
      some [⟨some "ARONIA-750ML", some "Aronia Pure", some 5, some 2⟩], none, none⟩
    ⟨"Ann", "ann@example.com", "12 Main St", [⟨"ARONIA-750ML", "Aronia Pure", 5, 2⟩], none⟩
    (by rfl) (by simp)
  refine ⟨by rfl, h.1, ?_, h.2 (some 999) none⟩
  norm_num [pyTotal, sumTotal, fpadd, fpmul, fp64, qfloorLog2, qabs, roundHalfEven, Nat.log2]

/-- C4: for every valid order with non-empty items, a failing store
insert is not propagated: the handler returns status ok with a null
order_id and the same total_amount as on a successful insert. -/
theorem C4_persistence_failure_degrades (o : Order) (h : o.items ≠ []) :
    create_order none o = ⟨.ok none (pyTotal o.items), true⟩ ∧
    ∀ oid, create_order (some oid) o = ⟨.ok (some oid) (pyTotal o.items), true⟩ := by
  have hne : o.items.isEmpty = false := by
    cases hits : o.items with
    | nil => exact absurd hits h
    | cons a as => rfl
  exact ⟨by simp [create_order, hne], fun oid => by simp [create_order, hne]⟩

/-- C4 witness: a concrete order whose total 10 is returned both when the
insert succeeds and when it raises. -/
theorem C4_witness :
    ([⟨"ARONIA-750ML", "Aronia Pure", (5 : ℚ), 2⟩] : List OrderItem) ≠ [] ∧
    create_order none ⟨"Ann", "ann@example.com", "12 Main St",
        [⟨"ARONIA-750ML", "Aronia Pure", 5, 2⟩], none⟩ =
      ⟨.ok none (pyTotal [⟨"ARONIA-750ML", "Aronia Pure", 5, 2⟩]), true⟩ ∧
    create_order (some "oid-1") ⟨"Ann", "ann@example.com", "12 Main St",
        [⟨"ARONIA-750ML", "Aronia Pure", 5, 2⟩], none⟩ =
      ⟨.ok (some "oid-1") (pyTotal [⟨"ARONIA-750ML", "Aronia Pure", 5, 2⟩]), true⟩ ∧
    pyTotal [⟨"ARONIA-750ML", "Aronia Pure", (5 : ℚ), 2⟩] = 10 := by
  have h := C4_persistence_failure_degrades
    ⟨"Ann", "ann@example.com", "12 Main St", [⟨"ARONIA-750ML", "Aronia Pure", 5, 2⟩], none⟩
    (by simp)
  refine ⟨by simp, h.1, h.2 "oid-1", ?_⟩
  norm_num [pyTotal, sumTotal, fpadd, fpmul, fp64, qfloorLog2, qabs, roundHalfEven, Nat.log2]

/-- C5: for every order whose items sequence is empty, create_order
raises the 400 bad-request error, never a 200; the insert is not
attempted (hence nothing is persisted and no total is returned). -/
theorem C5_empty_items_bad_request (ins : Option String) (o : Order) (h : o.items = []) :
    create_order ins o = ⟨.badRequest "Order must contain at least one item", false⟩ ∧
    (create_order ins o).response.statusCode = 400 := by
  constructor <;> simp [create_order, h, CheckoutResponse.statusCode]

/-- C5 witness: a concrete empty-items order is rejected with 400. -/
theorem C5_witness :
    (⟨"Ann", "ann@example.com", "12 Main St", [], none⟩ : Order).items = [] ∧
    create_order none ⟨"Ann", "ann@example.com", "12 Main St", [], none⟩ =
      ⟨.badRequest "Order must contain at least one item", false⟩ ∧
    (create_order none ⟨"Ann", "ann@example.com", "12 Main St", [], none⟩).response.statusCode
      = 400 := by
  have h := C5_empty_items_bad_request none
    ⟨"Ann", "ann@example.com", "12 Main St", [], none⟩ rfl
  exact ⟨rfl, h.1, h.2⟩

/-- C2 counterexample: an item with negative unit_price (-5) and
otherwise valid fields is NOT rejected by shape validation — the
OrderItem shape (src/schemas.py line 63) places no bound on unit_price —
so the handler body runs, attempts persistence, and returns 200 with the
negative total. -/
theorem C2_counterexample :
    checkout none ⟨some "Ann", some "ann@example.com", some "12 Main St",
        some [⟨some "ARONIA-750ML", some "Aronia Pure", some (-5), some 1⟩], none, none⟩ =
      ⟨.ok none (-5), true⟩ := by
  have he : isValidEmail "ann@example.com" = true := by decide
  norm_num [checkout, parseOrder, parseItems, parseOrderItem, he, create_order,
    pyTotal, sumTotal, fpadd, fpmul, fp64, qfloorLog2, qabs, roundHalfEven, Nat.log2]

/-- C2 (amended): a quantity outside [1,24] (when present) or a
malformed customer_email is rejected by input-shape validation as a
client error before the create_order handler body is reached (the insert
is never attempted); a negative unit_price, however, is not rejected. -/
theorem C2_shape_validation (ins : Option String) (req : RawOrder)
    (h : (∃ its, req.items = some its ∧
            ∃ r ∈ its, ∃ q, r.quantity = some q ∧ (q < 1 ∨ 24 < q)) ∨
         (∃ em, req.customer_email = some em ∧ isValidEmail em = false)) :
    checkout ins req = ⟨.validationError, false⟩ := by
  have hpn : parseOrder req = none := by
    obtain ⟨nm?, em?, ad?, its?, nts, tot⟩ := req
    rcases h with ⟨its, hits, r, hr, q, hq, hbad⟩ | ⟨em, hem, hbademail⟩
    · simp only at hits
      subst hits
      have hpi : parseItems its = none :=
        parseItems_none_of_mem its r hr (parseOrderItem_none_of_badQty r q hq hbad)
      cases nm? <;> cases em? <;> cases ad? <;> simp [parseOrder, hpi]
    · simp only at hem
      subst hem
      cases nm? <;> cases ad? <;> cases its? <;> simp [parseOrder, hbademail]
  simp [checkout, hpn]

/-- C2 witness: quantity 25 and a malformed email are each rejected
before the handler. -/
theorem C2_witness :
    checkout none ⟨some "Ann", some "ann@example.com", some "12 Main St",
        some [⟨some "ARONIA-750ML", some "Aronia Pure", some 5, some 25⟩], none, none⟩ =
      ⟨.validationError, false⟩ ∧
    checkout none ⟨some "Ann", some "not-an-email", some "12 Main St",
        some [⟨some "ARONIA-750ML", some "Aronia Pure", some 5, some 1⟩], none, none⟩ =
      ⟨.validationError, false⟩ := by
  constructor
  · exact C2_shape_validation none _
      (Or.inl ⟨_, rfl, _, List.mem_singleton.mpr rfl, 25, rfl, by norm_num⟩)
  · exact C2_shape_validation none _ (Or.inr ⟨"not-an-email", rfl, by decide⟩)

/-- C8 counterexample: at the spec's own example — unit prices 12.90 and
5.00 (as the binary64 values JSON decoding produces) with quantities 2
and 1 — the returned total_amount is the binary64 sum
8669429282688205 / 2^48, which is not the decimal 30.80 (= 154/5): the
arithmetic is not exact decimal arithmetic. -/
theorem C8_counterexample :
    (checkout none ⟨some "Ann", some "ann@example.com", some "12 Main St",
        some [⟨some "ARONIA-750ML", some "Aronia Pure", some (fp64 (129 / 10)), some 2⟩,
              ⟨some "GIFT-BOX", some "Gift box", some 5, some 1⟩], none, none⟩).response =
      .ok none (8669429282688205 / 281474976710656) ∧
    (8669429282688205 / 281474976710656 : ℚ) ≠ 154 / 5 := by
  constructor
  · have he : isValidEmail "ann@example.com" = true := by decide
    norm_num [checkout, parseOrder, parseItems, parseOrderItem, he, create_order,
      pyTotal, sumTotal, fpadd, fpmul, fp64, qfloorLog2, qabs, roundHalfEven, Nat.log2]
  · norm_num

/-- C8 (amended): the checkout total is computed in binary64
floating-point arithmetic, not exact decimal arithmetic; for the example
items [{unit_price 12.90, quantity 2}, {unit_price 5.00, quantity 1}]
the computed total is exactly the binary64 value of the literal 30.80
(so a float comparison against 30.80 succeeds), but that value differs
from the decimal 30.80. -/
theorem C8_binary64_total :
    pyTotal [⟨"ARONIA-750ML", "Aronia Pure", fp64 (129 / 10), 2⟩,
             ⟨"GIFT-BOX", "Gift box", 5, 1⟩] = fp64 (154 / 5) ∧
    fp64 (154 / 5) ≠ (154 / 5 : ℚ) := by
  constructor <;>
    norm_num [pyTotal, sumTotal, fpadd, fpmul, fp64, qfloorLog2, qabs, roundHalfEven, Nat.log2]

/-- C9: the returned total_amount is a function of the items'
(unit_price, quantity) pairs alone: two valid request bodies whose item
lists agree on those pairs item by item produce the same total, whatever
their customer_name, customer_email, shipping_address, notes,
client-supplied total, item titles and skus, and whether or not the
store insert succeeds. -/
theorem C9_total_noninterference (ins₁ ins₂ : Option String) (req₁ req₂ : RawOrder)
    (o₁ o₂ : Order) (h₁ : parseOrder req₁ = some o₁) (h₂ : parseOrder req₂ = some o₂)
    (h : o₁.items.map priceQty = o₂.items.map priceQty) :
    totalOf (checkout ins₁ req₁).response = totalOf (checkout ins₂ req₂).response := by
  have key : ∀ (ins : Option String) (o : Order),
      totalOf (create_order ins o).response =
        if o.items = [] then none else some (pyTotal o.items) := by
    intro ins o
    cases hit : o.items with
    | nil => simp [create_order, hit, totalOf]
    | cons a as => simp [create_order, hit, totalOf]
  simp only [checkout, h₁, h₂]
  rw [key ins₁ o₁, key ins₂ o₂]
  cases hits : o₁.items with
  | nil =>
    have h2 : o₂.items = [] := by
      rw [hits] at h
      exact List.map_eq_nil_iff.mp h.symm
    simp [hits, h2]
  | cons a as =>
    have h2ne : o₂.items ≠ [] := by
      intro hh
      rw [hits, hh] at h
      simp at h
    have hp : pyTotal o₁.items = pyTotal o₂.items := sumTotal_ext o₁.items o₂.items h 0
    rw [hits] at hp
    rw [if_neg (by simp : ¬(a :: as = [])), if_neg h2ne, hp]

/-- C9 witness: two orders differing in every identity field, in titles
and skus, in a client total, and in insert outcome, but agreeing on
(unit_price, quantity); both totals are 10. -/
theorem C9_witness :
    totalOf (checkout (some "oid-1") ⟨some "Ann", some "ann@example.com", some "12 Main St",
        some [⟨some "ARONIA-750ML", some "Aronia Pure", some 5, some 2⟩], none, some 999⟩).response =
      totalOf (checkout none ⟨some "Bob", some "bob@shop.org", some "7 Side Rd",
        some [⟨some "GIFT-BOX", some "Gift box", some 5, some 2⟩], some "ring twice", none⟩).response ∧
    totalOf (checkout (some "oid-1") ⟨some "Ann", some "ann@example.com", some "12 Main St",
        some [⟨some "ARONIA-750ML", some "Aronia Pure", some 5, some 2⟩], none, some 999⟩).response =
      some 10 := by
  constructor
  · exact C9_total_noninterference (some "oid-1") none _ _
      ⟨"Ann", "ann@example.com", "12 Main St", [⟨"ARONIA-750ML", "Aronia Pure", 5, 2⟩], none⟩
      ⟨"Bob", "bob@shop.org", "7 Side Rd", [⟨"GIFT-BOX", "Gift box", 5, 2⟩], some "ring twice"⟩
      (by rfl) (by rfl) (by rfl)
  · have he : isValidEmail "ann@example.com" = true := by decide
    norm_num [checkout, parseOrder, parseItems, parseOrderItem, he, create_order, totalOf,
      pyTotal, sumTotal, fpadd, fpmul, fp64, qfloorLog2, qabs, roundHalfEven, Nat.log2]

/-- C10: an order item that omits quantity passes shape validation with
quantity defaulted to 1 (src/schemas.py line 64), and contributes
exactly its unit_price to the computed total (for any binary64
unit_price value, as every JSON-decoded number is). -/
theorem C10_quantity_defaults_to_one (ins : Option String) (nm em ad sku t : String)
    (p : ℚ) (hem : isValidEmail em = true) (hp : fp64 p = p) :
    parseOrderItem ⟨some sku, some t, some p, none⟩ = some ⟨sku, t, p, 1⟩ ∧
    checkout ins ⟨some nm, some em, some ad,
        some [⟨some sku, some t, some p, none⟩], none, none⟩ =
      ⟨.ok ins p, true⟩ := by
  refine ⟨rfl, ?_⟩
  have h1 : fp64 ((1 : ℤ) : ℚ) = 1 := by
    norm_num [fp64, qfloorLog2, qabs, roundHalfEven, Nat.log2]
  have htot : pyTotal [⟨sku, t, p, 1⟩] = p := by
    show fpadd 0 (fpmul p (fp64 ((1 : ℤ) : ℚ))) = p
    rw [h1]
    unfold fpmul
    rw [mul_one, hp]
    unfold fpadd
    rw [zero_add, hp]
  simp [checkout, parseOrder, parseItems, parseOrderItem, hem, create_order, htot]

/-- C10 witness: an item {unit_price 5, no quantity} validates to
quantity 1 and the returned total is exactly 5. -/
theorem C10_witness :
    isValidEmail "ann@example.com" = true ∧ fp64 5 = 5 ∧
    parseOrderItem ⟨some "ARONIA-750ML", some "Aronia Pure", some 5, none⟩ =
      some ⟨"ARONIA-750ML", "Aronia Pure", 5, 1⟩ ∧
    checkout none ⟨some "Ann", some "ann@example.com", some "12 Main St",
        some [⟨some "ARONIA-750ML", some "Aronia Pure", some 5, none⟩], none, none⟩ =
      ⟨.ok none 5, true⟩ := by
  have hem : isValidEmail "ann@example.com" = true := by decide
  have hp : fp64 5 = 5 := by
    norm_num [fp64, qfloorLog2, qabs, roundHalfEven, Nat.log2]
  have h := C10_quantity_defaults_to_one none "Ann" "ann@example.com" "12 Main St"
    "ARONIA-750ML" "Aronia Pure" 5 hem hp
  exact ⟨hem, hp, h.1, h.2⟩

/-- C3 counterexample: a store state whose query succeeds and returns a
document whose price field holds null makes the normalization raise
(float(None)), outside the try/except around the query, so the endpoint
returns a server error rather than a 200 product sequence. -/
theorem C3_counterexample :
    list_products (some [{ price := some .jnull }]) true = ⟨.serverError, false⟩ := by
  simp [list_products, normalizeAll, normalize, pyFloat]

/-- C3 (amended): a store query failure is swallowed — the result is
treated as an empty list and GET /api/products still returns 200 with
the seeded default, exactly as for a genuinely empty store; but not
every store state yields a success: a returned document whose price or
volume_ml fails its Python coercion raises during normalization and
produces a failure response. -/
theorem C3_query_failure_swallowed (seedOk : Bool) :
    list_products none seedOk = ⟨.ok [defaultProduct], true⟩ ∧
    list_products (some []) seedOk = ⟨.ok [defaultProduct], true⟩ := by
  cases seedOk <;>
    exact ⟨by simp [list_products, validateResponse_default],
           by simp [list_products, validateResponse_default]⟩

/-- C6: whenever the catalog query yields an empty result — a truly
empty store or a swallowed query failure — list_products attempts the
seed insert and returns exactly the one default product, with sku
"ARONIA-750ML", price the binary64 value of 12.90, volume_ml 750 and
in_stock true, whether or not the seed insert succeeds. -/
theorem C6_seeded_default (q : Option (List Doc)) (seedOk : Bool)
    (h : q = none ∨ q = some []) :
    list_products q seedOk = ⟨.ok [defaultProduct], true⟩ ∧
    defaultProduct.sku = some (.jstr "ARONIA-750ML") ∧
    defaultProduct.price = fp64 (129 / 10) ∧
    defaultProduct.volume_ml = 750 ∧
    defaultProduct.in_stock = true := by
  refine ⟨?_, rfl, rfl, rfl, rfl⟩
  rcases h with h | h <;> subst h <;> cases seedOk <;>
    simp [list_products, validateResponse_default]

/-- C6 witness: the failed-query, failed-seed-insert case still returns
the single default product. -/
theorem C6_witness :
    ((none : Option (List Doc)) = none ∨ (none : Option (List Doc)) = some []) ∧
    list_products none false = ⟨.ok [defaultProduct], true⟩ ∧
    defaultProduct.sku = some (.jstr "ARONIA-750ML") :=
  ⟨Or.inl rfl, (C6_seeded_default none false (Or.inl rfl)).1,
    (C6_seeded_default none false (Or.inl rfl)).2.1⟩

/-- C7 counterexample: a non-empty query result need not produce N
products.  A query returning N = 2 documents whose second document has a
non-numeric volume_ml fails: the int() coercion raises.  And even a
single document on which every coercion succeeds — the empty document,
normalizing to title None, price 0, in_stock true, volume_ml 750 —
fails, because title None is rejected by the endpoint's
response_model=List[AroniaProduct] validation.  Both yield a server
error, not a product list. -/
theorem C7_counterexample :
    list_products (some [⟨none, none, none, none, none, none, none, none⟩,
        ⟨none, none, none, none, none, none, none, some (.jstr "tall")⟩]) false =
      ⟨.serverError, false⟩ ∧
    list_products (some [⟨none, none, none, none, none, none, none, none⟩]) false =
      ⟨.serverError, false⟩ := by
  have ht : pyIntOfString "tall" = none := by decide
  constructor
  · simp [list_products, normalizeAll, normalize, pyFloat, pyInt, pyTrunc, ht]
  · simp [list_products, normalizeAll, normalize, pyFloat, pyInt, pyBool,
      validateResponse, validAroniaProduct, isStrVal]

/-- C7 (amended): whenever the catalog query returns a non-empty
sequence of N documents on each of which every Python coercion succeeds
and whose normalized records all validate against the endpoint's
response model AroniaProduct (string title, description, category and
sku, optional string image_url, price at least 0, volume_ml at least
50), list_products returns exactly those N normalized products — with
missing fields defaulted (price 0, in_stock true, volume_ml 750, shown
on a document that passes the response model) and types coerced — and
never attempts the seed insert.  A document failing a coercion or the
response model instead aborts the request with a server error, per the
counterexample. -/
theorem C7_normalized_listing (docs : List Doc) (ps : List ProductOut) (seedOk : Bool)
    (hne : docs ≠ []) (h : normalizeAll docs = some ps)
    (hv : ps.all validAroniaProduct = true) :
    list_products (some docs) seedOk = ⟨.ok ps, false⟩ ∧
    ps.length = docs.length ∧
    normalize ⟨some (.jstr "T"), some (.jstr "D"), none, some (.jstr "C"), none, none,
        some (.jstr "S"), none⟩ =
      some ⟨some (.jstr "T"), some (.jstr "D"), 0, some (.jstr "C"), true, none,
        some (.jstr "S"), 750⟩ ∧
    validAroniaProduct ⟨some (.jstr "T"), some (.jstr "D"), 0, some (.jstr "C"), true, none,
        some (.jstr "S"), 750⟩ = true := by
  refine ⟨?_, normalizeAll_length docs ps h,
    by norm_num [normalize, pyFloat, pyInt, pyBool],
    by norm_num [validAroniaProduct, isStrVal, isOptStrVal]⟩
  cases hd : docs with
  | nil => exact absurd hd hne
  | cons d ds =>
    rw [hd] at h
    simp [list_products, h, validateResponse, hv]

/-- C7 witness: two stored documents — one exercising the type coercions
(int price 3, int 0 for in_stock, the string "750" for volume_ml), one a
double-priced document relying on the volume and in_stock defaults —
normalize to records that pass the response model and are returned as
exactly two products with no seed write. -/
theorem C7_witness :
    ([⟨some (.jstr "Aronia"), some (.jstr "Cold-pressed juice"), some (.jint 3),
        some (.jstr "Beverages"), some (.jint 0), none, some (.jstr "SKU-1"),
        some (.jstr "750")⟩,
      ⟨some (.jstr "Aronia Large"), some (.jstr "Family size"),
        some (.jnum (fp64 (129 / 10))), some (.jstr "Beverages"), none,
        some (.jstr "https://img.example/aronia.jpg"), some (.jstr "SKU-2"), none⟩]
        : List Doc) ≠ [] ∧
    normalizeAll [⟨some (.jstr "Aronia"), some (.jstr "Cold-pressed juice"), some (.jint 3),
        some (.jstr "Beverages"), some (.jint 0), none, some (.jstr "SKU-1"),
        some (.jstr "750")⟩,
      ⟨some (.jstr "Aronia Large"), some (.jstr "Family size"),
        some (.jnum (fp64 (129 / 10))), some (.jstr "Beverages"), none,
        some (.jstr "https://img.example/aronia.jpg"), some (.jstr "SKU-2"), none⟩] =
      some [⟨some (.jstr "Aronia"), some (.jstr "Cold-pressed juice"), 3,
              some (.jstr "Beverages"), false, none, some (.jstr "SKU-1"), 750⟩,
            ⟨some (.jstr "Aronia Large"), some (.jstr "Family size"), fp64 (129 / 10),
              some (.jstr "Beverages"), true,
              some (.jstr "https://img.example/aronia.jpg"), some (.jstr "SKU-2"), 750⟩] ∧
    ([⟨some (.jstr "Aronia"), some (.jstr "Cold-pressed juice"), 3,
        some (.jstr "Beverages"), false, none, some (.jstr "SKU-1"), 750⟩,
      ⟨some (.jstr "Aronia Large"), some (.jstr "Family size"), fp64 (129 / 10),
        some (.jstr "Beverages"), true,
        some (.jstr "https://img.example/aronia.jpg"), some (.jstr "SKU-2"), 750⟩]
        : List ProductOut).all validAroniaProduct = true ∧
    list_products (some [⟨some (.jstr "Aronia"), some (.jstr "Cold-pressed juice"),
        some (.jint 3), some (.jstr "Beverages"), some (.jint 0), none,
        some (.jstr "SKU-1"), some (.jstr "750")⟩,
      ⟨some (.jstr "Aronia Large"), some (.jstr "Family size"),
        some (.jnum (fp64 (129 / 10))), some (.jstr "Beverages"), none,
        some (.jstr "https://img.example/aronia.jpg"), some (.jstr "SKU-2"), none⟩]) true =
      ⟨.ok [⟨some (.jstr "Aronia"), some (.jstr "Cold-pressed juice"), 3,
              some (.jstr "Beverages"), false, none, some (.jstr "SKU-1"), 750⟩,
            ⟨some (.jstr "Aronia Large"), some (.jstr "Family size"), fp64 (129 / 10),
              some (.jstr "Beverages"), true,
              some (.jstr "https://img.example/aronia.jpg"), some (.jstr "SKU-2"), 750⟩],
        false⟩ := by
  have h750 : pyIntOfString "750" = some 750 := by decide
  have hnorm : normalizeAll [⟨some (.jstr "Aronia"), some (.jstr "Cold-pressed juice"),
      some (.jint 3), some (.jstr "Beverages"), some (.jint 0), none, some (.jstr "SKU-1"),
      some (.jstr "750")⟩,
    ⟨some (.jstr "Aronia Large"), some (.jstr "Family size"),
      some (.jnum (fp64 (129 / 10))), some (.jstr "Beverages"), none,
      some (.jstr "https://img.example/aronia.jpg"), some (.jstr "SKU-2"), none⟩] =
      some [⟨some (.jstr "Aronia"), some (.jstr "Cold-pressed juice"), 3,
              some (.jstr "Beverages"), false, none, some (.jstr "SKU-1"), 750⟩,
            ⟨some (.jstr "Aronia Large"), some (.jstr "Family size"), fp64 (129 / 10),
              some (.jstr "Beverages"), true,
              some (.jstr "https://img.example/aronia.jpg"), some (.jstr "SKU-2"), 750⟩] := by
    norm_num [normalizeAll, normalize, pyFloat, pyInt, pyBool, pyTrunc, h750]
  have hval : ([⟨some (.jstr "Aronia"), some (.jstr "Cold-pressed juice"), 3,
        some (.jstr "Beverages"), false, none, some (.jstr "SKU-1"), 750⟩,
      ⟨some (.jstr "Aronia Large"), some (.jstr "Family size"), fp64 (129 / 10),
        some (.jstr "Beverages"), true,
        some (.jstr "https://img.example/aronia.jpg"), some (.jstr "SKU-2"), 750⟩]
        : List ProductOut).all validAroniaProduct = true := by
    norm_num [validAroniaProduct, isStrVal, isOptStrVal,
      fp64, qfloorLog2, qabs, roundHalfEven, Nat.log2]
  exact ⟨by simp, hnorm, hval,
    (C7_normalized_listing _ _ true (by simp) hnorm hval).1⟩

end Aronia
